import Mathlib

/-!
Verification development for the keystroke-to-legacy-serial encoder of
patricksurry/kmk_firmware.

The repository contains two variants of the `VIAShifter` encoder:
* `src/kmk/extensions/via.py` — the self-clocked variant (namespace `KmkVia`);
* `src/boards/nullbitsco/tidbit/via.py` — the externally-clocked variant
  (namespace `TidbitVia`).

Machine integers are modelled as `Nat` (Python integers are unbounded; every
bit operation of the source is transcribed literally with `&&&`, `|||`, `<<<`).
Fallible operations (a table construction that can raise) return `Option`.
Diagnostic `print` calls are counted; pin writes of the externally-clocked
variant are counted as well.
-/

/-- Abstract key object, the data model shared by both variants.
`code` is the stable per-key integer code (`key.code` in the source);
`hasCode` models Python's `hasattr(key, 'code')` (a key-like object may lack
the attribute); `has_modifiers` models the `key.has_modifiers` collection of
inherent modifier flag values (Python `None` and the empty collection behave
identically in every use site, so a plain list suffices); `isModifier`
models `isinstance(key, ModifierKey)`. -/
structure Key where
  code : Nat
  hasCode : Bool
  has_modifiers : List Nat
  isModifier : Bool
deriving DecidableEq

/-- A code table: per-key integer code to `(unshiftedByte, shiftedByte)`.
Models the Python dict `self.keymap`; absence is `none`. -/
abbrev Keymap := Nat → Option (Nat × Nat)

/-- Dictionary update `self.keymap[c] = v`. -/
def updateMap (km : Keymap) (c : Nat) (v : Nat × Nat) : Keymap :=
  fun x => if x = c then some v else km x

/-- Modelled from the spec: the key-identity lookup service `KC` lives in
`kmk/keys.py`, which is not under `src/`; §4.1 and §6 describe it only as a
lookup that may resolve a key identity or fail to.  `byChar i` models
`KC.get(chr(i))` (used for the printable range) and `byName s` models
`KC.get(s)` for a named identity as well as attribute access `KC.<s>`
(used for the numeric-keypad aliases and the control-character specials);
a lookup that resolves to nothing is `none`. -/
structure KCEnv where
  byChar : Nat → Option Key
  byName : String → Option Key

/-- Modelled from the spec: `FIRST_KMK_INTERNAL_KEY`, the reserved
internal-code threshold imported from `kmk/keys.py` (not under `src/`);
§6 calls it "a reserved internal-code threshold".  The concrete value is
irrelevant to every theorem below; 1000 is used. -/
def FIRST_KMK_INTERNAL_KEY : Nat := 1000

/-- Modelled from the spec: `ModifierKey.FAKE_CODE`, the sentinel
"placeholder" modifier key code from `kmk/keys.py` (not under `src/`);
§4.2 describes it as "a sentinel placeholder modifier key code that carries
no real modifier semantics".  It is chosen distinct from every real modifier
code used below. -/
def FAKE_CODE : Nat := 0

/-! ## Self-clocked variant: `src/kmk/extensions/via.py` -/

namespace KmkVia

/-- `MOD_CTL = 0x11` (src/kmk/extensions/via.py line 31). -/
def MOD_CTL : Nat := 0x11

/-- `MOD_SFT = 0x22` (line 32). -/
def MOD_SFT : Nat := 0x22

/-- `MOD_ALT = 0x44` (line 33). -/
def MOD_ALT : Nat := 0x44

/-- `MOD_CMD = 0x88` (line 34). -/
def MOD_CMD : Nat := 0x88

/-- `isShifted` (lines 37-38):
`any(MOD_SFT & mod for mod in (key.has_modifiers or []))`. -/
def isShifted (key : Key) : Bool :=
  key.has_modifiers.any (fun mod => MOD_SFT &&& mod != 0)

/-- `VIAShifter.mapKey` (lines 59-68).  Note the Python idiom
`(_, _) = self.keymap[key.code]` leaves `_` bound to the SECOND component
of the pair, so both branches of the final expression reuse the old
shifted slot; the transcription preserves this exactly. -/
def mapKey (km : Keymap) (key : Key) (ascii : Nat) : Keymap :=
  match km key.code with
  | none => updateMap km key.code (ascii, ascii)
  | some p =>
      updateMap km key.code (if isShifted key then (p.2, ascii) else (ascii, p.2))

/-- Phase 1 of `VIAShifter.mapKeys` (lines 74-80): iterate
`range(32, 127)`, look up `KC.get(chr(i))`; a failed lookup is logged
(the counter in the second component) and skipped. -/
def mapKeysP1 (env : KCEnv) : Keymap × Nat :=
  (List.range' 32 95).foldl
    (fun acc i =>
      match env.byChar i with
      | none => (acc.1, acc.2 + 1)
      | some key => (mapKey acc.1 key i, acc.2))
    (fun _ => none, 0)

/-- The numeric-keypad alias table of `mapKeys` (lines 82-94), flattened to
(lookup name, ascii code) pairs in source iteration order:
`list(numpad.keys()) + list('0123456789')` with name `'NUMPAD_' +
numpad.get(c, c)` and code `ord(c)`. -/
def numpadEntries : List (String × Nat) :=
  [("NUMPAD_SLASH", 47), ("NUMPAD_ASTERISK", 42), ("NUMPAD_MINUS", 45),
   ("NUMPAD_PLUS", 43), ("NUMPAD_ENTER", 13), ("NUMPAD_DOT", 46),
   ("NUMPAD_COMMA", 61),
   ("NUMPAD_0", 48), ("NUMPAD_1", 49), ("NUMPAD_2", 50), ("NUMPAD_3", 51),
   ("NUMPAD_4", 52), ("NUMPAD_5", 53), ("NUMPAD_6", 54), ("NUMPAD_7", 55),
   ("NUMPAD_8", 56), ("NUMPAD_9", 57)]

/-- The control-character specials of `mapKeys` (lines 96-110), as
(attribute name, ascii code) pairs in source order. -/
def specialEntries : List (String × Nat) :=
  [("BKSP", 0x08), ("TAB", 0x09), ("ENTER", 0x0D), ("ESC", 0x1B),
   ("DEL", 0x7F), ("LEFT", 0x08), ("DOWN", 0x0A), ("UP", 0x0B),
   ("RIGHT", 0x15)]

/-- Phase 2 of `mapKeys` (lines 92-94): the lookup result is passed to
`mapKey` with no `None` guard, so a lookup that resolves to nothing raises
(`None.code`); modelled by `none` for the whole construction. -/
def mapKeysP2 (env : KCEnv) (km : Keymap) : Option Keymap :=
  numpadEntries.foldlM
    (fun km p => (env.byName p.1).map (fun key => mapKey km key p.2)) km

/-- Phase 3 of `mapKeys` (lines 96-110): `KC.BKSP` etc. are accessed and
passed to `mapKey` with no guard, so an identity that resolves to nothing
raises; modelled by `none` for the whole construction. -/
def mapKeysP3 (env : KCEnv) (km : Keymap) : Option Keymap :=
  specialEntries.foldlM
    (fun km p => (env.byName p.1).map (fun key => mapKey km key p.2)) km

/-- `VIAShifter.mapKeys` (lines 70-110): the three build phases in order.
The result also carries the count of phase-1 diagnostics; `none` models a
raised exception during construction. -/
def mapKeys (env : KCEnv) : Option (Keymap × Nat) :=
  let p1 := mapKeysP1 env
  (mapKeysP2 env p1.1).bind (fun km =>
    (mapKeysP3 env km).map (fun km => (km, p1.2)))

/-- Encoder instance state: the pressed-key snapshot `self._pressed`
(a Python set, modelled as a list of distinct keys) and the code table. -/
structure State where
  pressed : List Key
  keymap : Keymap

/-- One step of the modifier-accumulation loop of `sendKey` (lines 117-126):
skip keys that are neither the triggering key nor modifier keys; OR in
inherent modifier flags when present; otherwise OR in a modifier key's own
code unless it is the placeholder `FAKE_CODE`. -/
def accumulateMods (key : Key) (modifiers : Nat) (k : Key) : Nat :=
  if k ≠ key ∧ k.isModifier = false then modifiers
  else if k.has_modifiers ≠ [] then
    k.has_modifiers.foldl (fun m mod => m ||| mod) modifiers
  else if k.isModifier = true ∧ k.code ≠ FAKE_CODE then modifiers ||| k.code
  else modifiers

/-- The accumulated modifier bitmask of `sendKey` (lines 116-126):
bitwise OR over every currently pressed key. -/
def computeModifiers (st : State) (key : Key) : Nat :=
  st.pressed.foldl (accumulateMods key) 0

/-- The byte-transform portion of `sendKey` (lines 135-144): select the
shifted or unshifted byte, clamp with `0x1f` whenever the control bit is
set (the source has no further condition here), then set the high bit for
alt/command. -/
def encodeByte (vs : Nat × Nat) (modifiers : Nat) : Nat :=
  let v := if modifiers &&& MOD_SFT ≠ 0 then vs.2 else vs.1
  let v := if modifiers &&& MOD_CTL ≠ 0 then v &&& 0x1f else v
  if modifiers &&& (MOD_CMD ||| MOD_ALT) ≠ 0 then v ||| 0x80 else v

/-- Observable outcome of one `sendKey` call: the bytes passed to
`shiftByteOut` and the number of diagnostic `print` lines emitted. -/
structure SendResult where
  sent : List Nat
  diags : Nat
deriving DecidableEq

/-- `VIAShifter.sendKey` (lines 112-148).  Keys lacking a `code`
attribute, keys at or above `FIRST_KMK_INTERNAL_KEY`, and `ModifierKey`
instances return silently; an unmapped code emits one diagnostic; a mapped
code emits two diagnostics ("got mapping" and "sending") and transmits the
encoded byte. -/
def sendKey (st : State) (key : Key) : SendResult :=
  if !key.hasCode || FIRST_KMK_INTERNAL_KEY ≤ key.code || key.isModifier then
    ⟨[], 0⟩
  else
    let modifiers := computeModifiers st key
    match st.keymap key.code with
    | none => ⟨[], 1⟩
    | some vs => ⟨[encodeByte vs modifiers], 2⟩

/-- The bit loop of `shiftByteOut` (lines 155-159): at each of the `n`
iterations drive SDA to `bool(v & 0x80)` and shift `v` left once; each
iteration also pulses the clock high then low, so the resulting list is
the data-line value driven at each clock pulse. -/
def shiftBits : Nat → Nat → List Bool
  | 0, _ => []
  | n + 1, v => (v &&& 0x80 != 0) :: shiftBits n (v <<< 1)

/-- `VIAShifter.shiftByteOut` (lines 150-165): the sequence of data-line
values, one per self-generated clock pulse (8 iterations); the trailing
data-line clear and the RDY latch pulse carry no data and are not part of
the value trace. -/
def shiftByteOut (v : Nat) : List Bool :=
  shiftBits 8 v

/-- The newly-pressed-key selection of `after_hid_send` (lines 206-209):
when the current pressed set is strictly larger than the snapshot, pick
element `[0]` of the set difference, else `None`.  Python sets are modelled
as duplicate-free lists; `list(a - b)[0]` becomes the head of the filtered
list. -/
def chooseNewKey (prev cur : List Key) : Option Key :=
  if prev.length < cur.length then (cur.filter (fun k => k ∉ prev)).head?
  else none

/-- `VIAShifter.after_hid_send` (lines 205-212): select at most one newly
pressed key, replace the snapshot wholesale by the current pressed set
(the Python source reassigns `self._pressed` before calling `sendKey`, so
`sendKey` sees the new snapshot), then send the selected key if any. -/
def after_hid_send (st : State) (cur : List Key) : State × SendResult :=
  let key := chooseNewKey st.pressed cur
  let st' : State := { st with pressed := cur }
  (st', match key with
        | some k => sendKey st' k
        | none => ⟨[], 0⟩)

end KmkVia

/-! ## Externally-clocked variant: `src/boards/nullbitsco/tidbit/via.py` -/

namespace TidbitVia

/-- `MOD_CTL = 0x11` (src/boards/nullbitsco/tidbit/via.py line 29). -/
def MOD_CTL : Nat := 0x11

/-- `MOD_SFT = 0x22` (line 30). -/
def MOD_SFT : Nat := 0x22

/-- `MOD_ALT = 0x33` (line 31, as written in the source). -/
def MOD_ALT : Nat := 0x33

/-- `MOD_CMD = 0x44` (line 32, as written in the source). -/
def MOD_CMD : Nat := 0x44

/-- `modifierFlags` (lines 35-44): the bitwise OR of the key's inherent
modifier flags (`0` for a key with none). -/
def modifierFlags (key : Key) : Nat :=
  key.has_modifiers.foldl (fun flags mod => flags ||| mod) 0

/-- `isShifted` (lines 47-48): returns `1` or `0`, used both as a truth
value and as a tuple index. -/
def isShifted (key : Key) : Nat :=
  if modifierFlags key &&& MOD_SFT ≠ 0 then 1 else 0

/-- `VIAShifter.mapKey` (lines 86-95); identical to the self-clocked
variant's `mapKey` except that `isShifted` is the 0/1-valued function
here (truthiness of the Python int).  The `(_, _)` unpacking again leaves
`_` bound to the old shifted slot in both branches. -/
def mapKey (km : Keymap) (key : Key) (ascii : Nat) : Keymap :=
  match km key.code with
  | none => updateMap km key.code (ascii, ascii)
  | some p =>
      updateMap km key.code (if isShifted key ≠ 0 then (p.2, ascii) else (ascii, p.2))

/-- Phase 1 of `VIAShifter.mapKeys` (lines 101-107), as in the
self-clocked variant: failed printable-range lookups are logged and
skipped. -/
def mapKeysP1 (env : KCEnv) : Keymap × Nat :=
  (List.range' 32 95).foldl
    (fun acc i =>
      match env.byChar i with
      | none => (acc.1, acc.2 + 1)
      | some key => (mapKey acc.1 key i, acc.2))
    (fun _ => none, 0)

/-- The numeric-keypad alias table of `mapKeys` (lines 109-121), identical
to the self-clocked variant's. -/
def numpadEntries : List (String × Nat) :=
  [("NUMPAD_SLASH", 47), ("NUMPAD_ASTERISK", 42), ("NUMPAD_MINUS", 45),
   ("NUMPAD_PLUS", 43), ("NUMPAD_ENTER", 13), ("NUMPAD_DOT", 46),
   ("NUMPAD_COMMA", 61),
   ("NUMPAD_0", 48), ("NUMPAD_1", 49), ("NUMPAD_2", 50), ("NUMPAD_3", 51),
   ("NUMPAD_4", 52), ("NUMPAD_5", 53), ("NUMPAD_6", 54), ("NUMPAD_7", 55),
   ("NUMPAD_8", 56), ("NUMPAD_9", 57)]

/-- The control-character specials of `mapKeys` (lines 123-137), identical
to the self-clocked variant's. -/
def specialEntries : List (String × Nat) :=
  [("BKSP", 0x08), ("TAB", 0x09), ("ENTER", 0x0D), ("ESC", 0x1B),
   ("DEL", 0x7F), ("LEFT", 0x08), ("DOWN", 0x0A), ("UP", 0x0B),
   ("RIGHT", 0x15)]

/-- Phase 2 of `mapKeys` (lines 119-121): no `None` guard on the lookup
result, so an unresolvable identity raises; modelled by `none`. -/
def mapKeysP2 (env : KCEnv) (km : Keymap) : Option Keymap :=
  numpadEntries.foldlM
    (fun km p => (env.byName p.1).map (fun key => mapKey km key p.2)) km

/-- Phase 3 of `mapKeys` (lines 123-137): no guard on the attribute
lookups, so an unresolvable identity raises; modelled by `none`. -/
def mapKeysP3 (env : KCEnv) (km : Keymap) : Option Keymap :=
  specialEntries.foldlM
    (fun km p => (env.byName p.1).map (fun key => mapKey km key p.2)) km

/-- `VIAShifter.mapKeys` (lines 97-137). -/
def mapKeys (env : KCEnv) : Option (Keymap × Nat) :=
  let p1 := mapKeysP1 env
  (mapKeysP2 env p1.1).bind (fun km =>
    (mapKeysP3 env km).map (fun km => (km, p1.2)))

/-- `VIAShifter.checkClock` (lines 74-84), classification step only: the
probe counts `n` falling edges over `elapsed` seconds and sets
`self.active = elapsed > 1 and n > 3`.  Elapsed time is modelled as an
exact rational. -/
def checkClockActive (elapsed : Rat) (n : Nat) : Bool :=
  decide (1 < elapsed) && decide (3 < n)

/-- Encoder instance state of the externally-clocked variant: the liveness
classification made once at startup and the code table. -/
structure State where
  active : Bool
  keymap : Keymap

/-- The byte-transform portion of `sendKey` (lines 146-151): select via the
key's own shift state, clamp with `0x1F` only when the control flag is set
AND `v & 0b11000000 == 0b01000000`, then set the high bit when any bit of
`MOD_CMD | MOD_ALT` is present in the key's flags. -/
def encodeByte (vs : Nat × Nat) (key : Key) : Nat :=
  let v := if isShifted key = 0 then vs.1 else vs.2
  let flags := modifierFlags key
  let v := if flags &&& MOD_CTL ≠ 0 ∧ v &&& 0xC0 = 0x40 then v &&& 0x1F else v
  if flags &&& (MOD_CMD ||| MOD_ALT) ≠ 0 then v ||| 0x80 else v

/-- Observable outcome of one externally-clocked `sendKey` call: bytes
passed to `shiftByteOut`, diagnostic `print` lines, and the number of
output-pin writes performed (`debug_leds` plus the transmission itself). -/
structure SendResult where
  sent : List Nat
  diags : Nat
  pinWrites : Nat
deriving DecidableEq

/-- Pin writes of `debug_leds(slow=False)` (lines 194-199): SDA high,
SCL high, SDA low, SCL low. -/
def debugLedsWrites : Nat := 4

/-- The bit loop of `shiftByteOut` (lines 165-176): the same
MSB-first data logic as the self-clocked variant (`bool(v & 0x80)`, then
`v <<= 1`), one internal clock pulse per bit synchronized to counted
rising edges of the external clock. -/
def shiftBits : Nat → Nat → List Bool
  | 0, _ => []
  | n + 1, v => (v &&& 0x80 != 0) :: shiftBits n (v <<< 1)

/-- `VIAShifter.shiftByteOut` (lines 158-177): the sequence of data-line
values driven, one per internal clock pulse (8 iterations).  The
busy-waits on the external edge counter determine timing only, not the
driven values, and are not part of the value trace. -/
def shiftByteOut (v : Nat) : List Bool :=
  shiftBits 8 v

/-- `VIAShifter.sendKey` (lines 139-156).  When the startup probe left
`active = False`, or the key lacks a `code` attribute, the call returns
immediately: nothing sent, nothing printed, no pin written, state
untouched.  A mapped code prints one "sending" line, flashes the debug
LEDs and transmits (each transmitted bit costs one SDA write and two SCL
writes, plus the final SDA clear); an unmapped code prints one
"no ascii mapping" line. -/
def sendKey (st : State) (key : Key) : State × SendResult :=
  if !st.active || !key.hasCode then (st, ⟨[], 0, 0⟩)
  else
    match st.keymap key.code with
    | some vs =>
        let v := encodeByte vs key
        (st, ⟨[v], 1, debugLedsWrites + (3 * (shiftByteOut v).length + 1)⟩)
    | none => (st, ⟨[], 1, 0⟩)

end TidbitVia

/-! ## Spec-side formulations (transcribed from the spec's words, for
refinement comparisons) -/

/-- Spec §8 "the byte's bits in strict MSB-to-LSB order": position `i` of
the transmitted sequence is bit `7 - i` of the byte. -/
def specBitsMSB (v : Nat) : List Bool :=
  (List.range 8).map (fun i => v.testBit (7 - i))

/-- Spec §4.3 encode steps 2-4 with the step-3 clamp exactly as §4.3
words it: clamp iff the control bit is held AND the selected byte's top
two bits equal `01` (bit 6 set, bit 7 clear); then step 4 sets the top
bit when alt or command is held.  `shiftSel` abstracts step 2's shift
test, `ctl` and `altcmd` abstract the mask tests of steps 3 and 4. -/
def specEncodeCond (vs : Nat × Nat) (shiftSel : Bool) (ctl : Bool) (altcmd : Bool) : Nat :=
  let v := if shiftSel then vs.2 else vs.1
  let v := if ctl ∧ v.testBit 6 = true ∧ v.testBit 7 = false then v &&& 0x1F else v
  if altcmd then v ||| 0x80 else v

/-- The blanket-clamp alternative to `specEncodeCond`: step 3 clamps
whenever the control bit is held, with no condition on the selected
byte's top bits. -/
def specEncodeBlanket (vs : Nat × Nat) (shiftSel : Bool) (ctl : Bool) (altcmd : Bool) : Nat :=
  let v := if shiftSel then vs.2 else vs.1
  let v := if ctl then v &&& 0x1F else v
  if altcmd then v ||| 0x80 else v

/-! ## Concrete fixtures

Modelled from the spec: the concrete key identities below stand in for the
`KC` table of `kmk/keys.py`, which is not under `src/`.  Codes follow the
spec's data model (§3): a stable per-key integer code, with `'a'` and
`'A'` resolving to the same plain letter key (the shifted slot of its
table entry is fixed by the earlier `'A'` observation, §3's "first
observation of a code fixes both slots equal"), and left
control/shift/alt being modifier keys whose own codes are the modifier
bits 1/2/4 accumulated by the resolver (§4.2). -/

/-- The plain letter key that both `'a'` (code point 97) and `'A'`
(code point 65) resolve to; per-key code 4. -/
def keyA : Key := ⟨4, true, [], false⟩

/-- The left-control modifier key: a `ModifierKey` whose own code is the
control bit 0x01. -/
def lctl : Key := ⟨1, true, [], true⟩

/-- The left-shift modifier key: a `ModifierKey` whose own code is the
shift bit 0x02. -/
def lsft : Key := ⟨2, true, [], true⟩

/-- The left-alt modifier key: a `ModifierKey` whose own code is the
alt bit 0x04. -/
def lalt : Key := ⟨4, true, [], true⟩

/-- An `'a'`-key event that itself carries the left-shift modifier flag
(spec §3: the mask includes "the key itself if it carries inherent
modifiers"). -/
def keyAShift : Key := ⟨4, true, [2], false⟩

/-- A modifier-free key event whose code 60 is bound to byte `0x3F`
(`'?'`) in both slots of the fixture table `kmQ`. -/
def keyQm : Key := ⟨60, true, [], false⟩

/-- A one-entry code table binding code 60 to `(0x3F, 0x3F)`. -/
def kmQ : Keymap := updateMap (fun _ => none) 60 (0x3F, 0x3F)

/-- An event key with a code at the reserved internal threshold. -/
def keyInternal : Key := ⟨1000, true, [], false⟩

/-- Printable-range lookup of the fixture environment: only `'A'` (65)
and `'a'` (97) resolve, both to the same plain key `keyA`; every other
code point is left unresolved (the build logs and skips it). -/
def stdByChar : Nat → Option Key :=
  fun i => if i = 65 ∨ i = 97 then some keyA else none

/-- Named-identity lookup of the fixture environment: every numeric-keypad
alias and control-character special resolves to a distinct plain key with
a standard HID-style code. -/
def stdByName : String → Option Key := fun s =>
  match s with
  | "NUMPAD_SLASH" => some ⟨84, true, [], false⟩
  | "NUMPAD_ASTERISK" => some ⟨85, true, [], false⟩
  | "NUMPAD_MINUS" => some ⟨86, true, [], false⟩
  | "NUMPAD_PLUS" => some ⟨87, true, [], false⟩
  | "NUMPAD_ENTER" => some ⟨88, true, [], false⟩
  | "NUMPAD_DOT" => some ⟨99, true, [], false⟩
  | "NUMPAD_COMMA" => some ⟨133, true, [], false⟩
  | "NUMPAD_0" => some ⟨98, true, [], false⟩
  | "NUMPAD_1" => some ⟨89, true, [], false⟩
  | "NUMPAD_2" => some ⟨90, true, [], false⟩
  | "NUMPAD_3" => some ⟨91, true, [], false⟩
  | "NUMPAD_4" => some ⟨92, true, [], false⟩
  | "NUMPAD_5" => some ⟨93, true, [], false⟩
  | "NUMPAD_6" => some ⟨94, true, [], false⟩
  | "NUMPAD_7" => some ⟨95, true, [], false⟩
  | "NUMPAD_8" => some ⟨96, true, [], false⟩
  | "NUMPAD_9" => some ⟨97, true, [], false⟩
  | "BKSP" => some ⟨42, true, [], false⟩
  | "TAB" => some ⟨43, true, [], false⟩
  | "ENTER" => some ⟨40, true, [], false⟩
  | "ESC" => some ⟨41, true, [], false⟩
  | "DEL" => some ⟨76, true, [], false⟩
  | "LEFT" => some ⟨80, true, [], false⟩
  | "DOWN" => some ⟨81, true, [], false⟩
  | "UP" => some ⟨82, true, [], false⟩
  | "RIGHT" => some ⟨79, true, [], false⟩
  | _ => none

/-- The fixture lookup environment. -/
def stdKC : KCEnv := ⟨stdByChar, stdByName⟩

/-- A lookup environment whose named-identity lookups all fail (printable
range as in `stdKC`), exercising an unresolvable keypad alias. -/
def envNoNames : KCEnv := ⟨stdByChar, fun _ => none⟩

/-- The self-clocked variant's code table built over the fixture
environment. -/
def stdKeymapK : Keymap :=
  match KmkVia.mapKeys stdKC with
  | some p => p.1
  | none => fun _ => none

/-- The externally-clocked variant's code table built over the fixture
environment. -/
def stdKeymapT : Keymap :=
  match TidbitVia.mapKeys stdKC with
  | some p => p.1
  | none => fun _ => none

/-! ## Helper lemmas -/

set_option maxRecDepth 4096 in
/-- For byte values, the source test `v & 0b11000000 == 0b01000000` is
exactly the spec's "top two bits equal 01" (bit 6 set, bit 7 clear). -/
theorem and_c0_eq_40_iff : ∀ v < 256,
    (v &&& 0xC0 = 0x40 ↔ (v.testBit 6 = true ∧ v.testBit 7 = false)) := by
  decide

/-- A lookup-then-map fold over `Option` succeeds when every lookup in the
list succeeds. -/
theorem foldlM_lookup_isSome (byName : String → Option Key)
    (f : Keymap → Key → Nat → Keymap) :
    ∀ (l : List (String × Nat)) (km : Keymap),
      (l.all (fun p => (byName p.1).isSome)) = true →
      ((l.foldlM (fun km p => (byName p.1).map (fun key => f km key p.2)) km).isSome)
        = true := by
  intro l
  induction l with
  | nil => intro km _; simp
  | cons p t ih =>
    intro km h
    rw [List.all_cons, Bool.and_eq_true] at h
    obtain ⟨k, hk⟩ := Option.isSome_iff_exists.mp h.1
    rw [List.foldlM_cons, hk]
    exact ih (f km k p.2) h.2

/-- The phase-1 fold counts exactly the printable code points whose lookup
fails, independent of the per-hit table update `f`. -/
theorem foldl_miss_count (byChar : Nat → Option Key)
    (f : Keymap → Key → Nat → Keymap) :
    ∀ (l : List Nat) (km : Keymap) (d : Nat),
      ((l.foldl
          (fun acc i =>
            match byChar i with
            | none => (acc.1, acc.2 + 1)
            | some key => (f acc.1 key i, acc.2)) (km, d)).2)
        = d + (l.filter (fun i => (byChar i).isNone)).length := by
  intro l
  induction l with
  | nil => intro km d; simp
  | cons i t ih =>
    intro km d
    rw [List.foldl_cons, List.filter_cons]
    cases h : byChar i with
    | none => simp only [h, Option.isNone_none, if_pos rfl]; rw [ih]; simp; omega
    | some k => simp only [h, Option.isNone_some]; rw [ih]; simp

/-- A duplicate-free list strictly longer than another contains an element
outside it, so the newly-pressed filter is nonempty. -/
theorem filter_new_ne_nil (prev cur : List Key) (hn : cur.Nodup)
    (h : prev.length < cur.length) :
    (cur.filter (fun k => k ∉ prev)) ≠ [] := by
  intro hempty
  have hsub : cur ⊆ prev := by
    intro x hx
    by_contra hnx
    have hmem : x ∈ cur.filter (fun k => k ∉ prev) := by
      rw [List.mem_filter]
      exact ⟨hx, by simpa using hnx⟩
    rw [hempty] at hmem
    exact (List.not_mem_nil x) hmem
  have hle := (hn.subperm hsub).length_le
  omega

/-- The self-clocked `sendKey` transmits at most one byte per call. -/
theorem kmk_sendKey_sent_le_one (st : KmkVia.State) (key : Key) :
    (KmkVia.sendKey st key).sent.length ≤ 1 := by
  unfold KmkVia.sendKey
  split
  · simp
  · split <;> simp

/-! ## Claim theorems -/

/-- C3: the claim says the four modifier bitmask constants occupy pairwise
disjoint bits so that the alt-or-command test fires only when alt or
command is held.  The self-clocked variant's constants (0x11/0x22/0x44/0x88)
are pairwise disjoint, but the externally-clocked variant's
`MOD_ALT = 0x33` and `MOD_CMD = 0x44` overlap `MOD_CTL = 0x11` and
`MOD_SFT = 0x22` — contradicting that file's own docstring ("each nibble
representing CMD/WIN, ALT/OPT, SFT, CTL") — so there a control-only or
shift-only mask already passes the alt-or-command test. -/
theorem claim_C3_mask_disjointness :
    (KmkVia.MOD_CTL &&& KmkVia.MOD_SFT = 0
      ∧ KmkVia.MOD_CTL &&& KmkVia.MOD_ALT = 0
      ∧ KmkVia.MOD_CTL &&& KmkVia.MOD_CMD = 0
      ∧ KmkVia.MOD_SFT &&& KmkVia.MOD_ALT = 0
      ∧ KmkVia.MOD_SFT &&& KmkVia.MOD_CMD = 0
      ∧ KmkVia.MOD_ALT &&& KmkVia.MOD_CMD = 0)
    ∧ TidbitVia.MOD_ALT &&& TidbitVia.MOD_CTL = 0x11
    ∧ TidbitVia.MOD_ALT &&& TidbitVia.MOD_SFT = 0x22
    ∧ TidbitVia.MOD_CTL &&& (TidbitVia.MOD_CMD ||| TidbitVia.MOD_ALT) ≠ 0
    ∧ TidbitVia.MOD_SFT &&& (TidbitVia.MOD_CMD ||| TidbitVia.MOD_ALT) ≠ 0 := by
  decide

/-- C5: the clock liveness probe classifies the clock as active iff the
elapsed probe time strictly exceeds one time unit AND strictly more than
three edges were counted; zero edges give false, four edges over more than
one unit give true, and four edges within half a unit give false. -/
theorem claim_C5_clock_liveness :
    (∀ (elapsed : Rat) (n : Nat),
        TidbitVia.checkClockActive elapsed n = true ↔ (1 < elapsed ∧ 3 < n))
    ∧ (∀ elapsed : Rat, TidbitVia.checkClockActive elapsed 0 = false)
    ∧ TidbitVia.checkClockActive 2 4 = true
    ∧ TidbitVia.checkClockActive (1/2) 4 = false := by
  refine ⟨?_, ?_, ?_, ?_⟩
  · intro elapsed n
    simp [TidbitVia.checkClockActive]
  · intro elapsed
    simp [TidbitVia.checkClockActive]
  · norm_num [TidbitVia.checkClockActive]
  · norm_num [TidbitVia.checkClockActive]

set_option maxRecDepth 4096 in
/-- C6: for every byte value, `shiftByteOut` performs exactly 8 iterations
and drives the data line, one value per clock pulse, with the byte's bits
in strict MSB-to-LSB order, in both the self-clocked and the
externally-clocked variant. -/
theorem claim_C6_transmitter_msb_first :
    ∀ v : Nat, v < 256 →
      KmkVia.shiftByteOut v = specBitsMSB v
      ∧ TidbitVia.shiftByteOut v = specBitsMSB v
      ∧ (KmkVia.shiftByteOut v).length = 8
      ∧ (TidbitVia.shiftByteOut v).length = 8 := by
  decide

/-- Witness for C6 at the concrete byte 0xA5. -/
theorem claim_C6_witness :
    (0xA5 : Nat) < 256 ∧ KmkVia.shiftByteOut 0xA5 = specBitsMSB 0xA5 :=
  ⟨by decide, (claim_C6_transmitter_msb_first 0xA5 (by decide)).1⟩

/-- C2: end-to-end encoding of the key mapped to `'a'` over the fixture
table (entry `(0x61, 0x41)` at code 4).  The self-clocked variant behaves
as the claim states: no modifiers give 0x61, shift gives 0x41,
shift+control give 0x01, and alt sets the top bit independently of the
clamp (control+alt give 0x81, shift+control+alt give 0x81).  The
externally-clocked variant does NOT: because its `MOD_ALT = 0x33` and
`MOD_CMD = 0x44` overlap the shift bits, the same key with only shift held
is emitted as 0xC1 instead of 0x41 (the top bit is set although neither
alt nor command is held). -/
theorem claim_C2_end_to_end_evaluation :
    KmkVia.sendKey ⟨[keyA], stdKeymapK⟩ keyA = ⟨[0x61], 2⟩
    ∧ KmkVia.sendKey ⟨[keyA, lsft], stdKeymapK⟩ keyA = ⟨[0x41], 2⟩
    ∧ KmkVia.sendKey ⟨[keyA, lsft, lctl], stdKeymapK⟩ keyA = ⟨[0x01], 2⟩
    ∧ KmkVia.sendKey ⟨[keyA, lctl, lalt], stdKeymapK⟩ keyA = ⟨[0x81], 2⟩
    ∧ KmkVia.sendKey ⟨[keyA, lsft, lctl, lalt], stdKeymapK⟩ keyA = ⟨[0x81], 2⟩
    ∧ (TidbitVia.sendKey ⟨true, stdKeymapT⟩ keyAShift).2.sent = [0xC1] :=
  ⟨rfl, rfl, rfl, rfl, rfl, rfl⟩

/-- C1, counterexample: the claim asserts the control-clamp is applied iff
the selected byte's top two bits equal 01 in BOTH variants, and that a
byte like 0x3F is returned unchanged under the control modifier.  In the
self-clocked variant the key bound to byte 0x3F (top two bits 00) pressed
together with control is transmitted as 0x1F: the clamp was applied to a
byte whose top two bits are not 01. -/
theorem claim_C1_counterexample :
    KmkVia.sendKey ⟨[keyQm, lctl], kmQ⟩ keyQm = ⟨[0x1F], 2⟩
    ∧ (0x3F : Nat) &&& 0xC0 ≠ 0x40 :=
  ⟨rfl, by decide⟩

/-- C1, amended: the control-clamp is applied iff the selected byte's top
two bits equal 01 in the externally-clocked variant only; the self-clocked
variant clamps unconditionally whenever the control bit is set.  Stated as
a refinement: for byte-valued table entries the externally-clocked
`encodeByte` coincides with the spec's conditional-clamp formulation
(`specEncodeCond`, clamp iff bit 6 set and bit 7 clear) while the
self-clocked `encodeByte` coincides with the blanket-clamp formulation
(`specEncodeBlanket`). -/
theorem claim_C1_amended (u s modifiers : Nat) (key : Key)
    (hu : u < 256) (hs : s < 256) :
    TidbitVia.encodeByte (u, s) key
      = specEncodeCond (u, s) (TidbitVia.isShifted key != 0)
          (TidbitVia.modifierFlags key &&& TidbitVia.MOD_CTL != 0)
          (TidbitVia.modifierFlags key &&& (TidbitVia.MOD_CMD ||| TidbitVia.MOD_ALT) != 0)
    ∧ KmkVia.encodeByte (u, s) modifiers
      = specEncodeBlanket (u, s) (modifiers &&& KmkVia.MOD_SFT != 0)
          (modifiers &&& KmkVia.MOD_CTL != 0)
          (modifiers &&& (KmkVia.MOD_CMD ||| KmkVia.MOD_ALT) != 0) := by
  constructor
  · unfold TidbitVia.encodeByte specEncodeCond
    have hbu := and_c0_eq_40_iff u hu
    have hbs := and_c0_eq_40_iff s hs
    by_cases h1 : TidbitVia.isShifted key = 0 <;>
      by_cases h2 : TidbitVia.modifierFlags key &&& TidbitVia.MOD_CTL = 0 <;>
      by_cases h3 : TidbitVia.modifierFlags key &&& (TidbitVia.MOD_CMD ||| TidbitVia.MOD_ALT) = 0 <;>
      simp [h1, h2, h3, hbu, hbs]
  · unfold KmkVia.encodeByte specEncodeBlanket
    by_cases h1 : modifiers &&& KmkVia.MOD_SFT = 0 <;>
      by_cases h2 : modifiers &&& KmkVia.MOD_CTL = 0 <;>
      by_cases h3 : modifiers &&& (KmkVia.MOD_CMD ||| KmkVia.MOD_ALT) = 0 <;>
      simp [h1, h2, h3]

/-- Witness for the amended C1 at the concrete table entry (0x41, 0x3F)
with a shift-carrying key and a control-only mask. -/
theorem claim_C1_amended_witness :
    (0x41 : Nat) < 256 ∧ (0x3F : Nat) < 256
    ∧ TidbitVia.encodeByte (0x41, 0x3F) keyAShift
        = specEncodeCond (0x41, 0x3F) (TidbitVia.isShifted keyAShift != 0)
            (TidbitVia.modifierFlags keyAShift &&& TidbitVia.MOD_CTL != 0)
            (TidbitVia.modifierFlags keyAShift &&&
              (TidbitVia.MOD_CMD ||| TidbitVia.MOD_ALT) != 0) :=
  ⟨by decide, by decide,
    (claim_C1_amended 0x41 0x3F 0x11 keyAShift (by decide) (by decide)).1⟩

/-- C4: the first `mapKey` observation of a code sets both table slots to
the observed byte; a later observation of the same code with the opposite
shift state overwrites only its own slot and preserves the other; hence
when both a shifted and an unshifted identity of one code are mapped, the
final `(unshiftedByte, shiftedByte)` pair is `(a, b)` regardless of the
order of the two observations — in both variants. -/
theorem claim_C4_commutative_stabilization
    (km : Keymap) (c a b : Nat) (ku ks : Key)
    (hcu : ku.code = c) (hcs : ks.code = c) (h0 : km c = none)
    (hu : KmkVia.isShifted ku = false) (hs : KmkVia.isShifted ks = true)
    (hu2 : TidbitVia.isShifted ku = 0) (hs2 : TidbitVia.isShifted ks = 1) :
    ((KmkVia.mapKey km ku a) c = some (a, a)
      ∧ (KmkVia.mapKey km ks b) c = some (b, b)
      ∧ (KmkVia.mapKey (KmkVia.mapKey km ku a) ks b) c = some (a, b)
      ∧ (KmkVia.mapKey (KmkVia.mapKey km ks b) ku a) c = some (a, b))
    ∧ ((TidbitVia.mapKey km ku a) c = some (a, a)
      ∧ (TidbitVia.mapKey km ks b) c = some (b, b)
      ∧ (TidbitVia.mapKey (TidbitVia.mapKey km ku a) ks b) c = some (a, b)
      ∧ (TidbitVia.mapKey (TidbitVia.mapKey km ks b) ku a) c = some (a, b)) := by
  constructor
  · refine ⟨?_, ?_, ?_, ?_⟩ <;>
      simp [KmkVia.mapKey, updateMap, hcu, hcs, h0, hu, hs]
  · refine ⟨?_, ?_, ?_, ?_⟩ <;>
      simp [TidbitVia.mapKey, updateMap, hcu, hcs, h0, hu2, hs2]

/-- Witness for C4: code 5 observed unshifted as byte 10 and shifted as
byte 20, in each order, ends at `(10, 20)`. -/
theorem claim_C4_witness :
    (KmkVia.mapKey (KmkVia.mapKey (fun _ => none) ⟨5, true, [], false⟩ 10)
        ⟨5, true, [2], false⟩ 20) 5 = some (10, 20)
    ∧ (TidbitVia.mapKey (TidbitVia.mapKey (fun _ => none) ⟨5, true, [2], false⟩ 20)
        ⟨5, true, [], false⟩ 10) 5 = some (10, 20) := by
  have h := claim_C4_commutative_stabilization (fun _ => none) 5 10 20
    ⟨5, true, [], false⟩ ⟨5, true, [2], false⟩ rfl rfl rfl
    (by decide) (by decide) (by decide) (by decide)
  exact ⟨h.1.2.2.1, h.2.2.2.2⟩

/-- C7: in the externally-clocked variant, once the startup probe left
`active = false`, every `sendKey` call is a silent no-op for every key:
no byte transmitted, no diagnostic printed, no output pin written, and
the encoder state returned unchanged. -/
theorem claim_C7_inactive_silent_noop
    (st : TidbitVia.State) (key : Key) (h : st.active = false) :
    TidbitVia.sendKey st key = (st, ⟨[], 0, 0⟩) := by
  unfold TidbitVia.sendKey
  simp [h]

/-- Witness for C7: a state whose `active` flag came from a probe that saw
zero edges in zero time is a silent no-op even for a mapped key. -/
theorem claim_C7_witness :
    TidbitVia.sendKey ⟨TidbitVia.checkClockActive 0 0, stdKeymapT⟩ keyA
      = (⟨TidbitVia.checkClockActive 0 0, stdKeymapT⟩, ⟨[], 0, 0⟩) :=
  claim_C7_inactive_silent_noop _ keyA (by norm_num [TidbitVia.checkClockActive])

/-- C8, counterexample: the claim requires that an event for a
modifier-only key, or for a code at/above the reserved threshold, is
silently ignored (no transmission, no diagnostic).  The externally-clocked
variant has no such filter: with the clock active, a modifier-only key
(left shift) and an internal-threshold code each fall through to the
unmapped-code branch and emit one diagnostic. -/
theorem claim_C8_counterexample :
    (TidbitVia.sendKey ⟨true, stdKeymapT⟩ lsft).2.diags = 1
    ∧ lsft.isModifier = true
    ∧ (TidbitVia.sendKey ⟨true, stdKeymapT⟩ keyInternal).2.diags = 1
    ∧ FIRST_KMK_INTERNAL_KEY ≤ keyInternal.code := by
  refine ⟨rfl, rfl, rfl, by decide⟩

/-- C8, amended: the silent filtering (no transmission, no diagnostic for
internal-threshold codes and modifier-only keys) holds in the self-clocked
variant, whose unmapped codes produce no transmission and exactly one
diagnostic; the externally-clocked variant filters silently only keys
lacking a `code` attribute and emits one diagnostic (still transmitting
nothing) for any key whose code has no table entry, modifier-only and
internal keys included. -/
theorem claim_C8_amended (st : KmkVia.State) (key : Key) (tst : TidbitVia.State) :
    (key.hasCode = true → (FIRST_KMK_INTERNAL_KEY ≤ key.code ∨ key.isModifier = true) →
        KmkVia.sendKey st key = ⟨[], 0⟩)
    ∧ (key.hasCode = true → key.code < FIRST_KMK_INTERNAL_KEY → key.isModifier = false →
        st.keymap key.code = none → KmkVia.sendKey st key = ⟨[], 1⟩)
    ∧ (tst.active = true → key.hasCode = true → tst.keymap key.code = none →
        (TidbitVia.sendKey tst key).2 = ⟨[], 1, 0⟩) := by
  refine ⟨?_, ?_, ?_⟩
  · intro h1 h2
    unfold KmkVia.sendKey
    rcases h2 with h2 | h2 <;> simp [h1, h2]
  · intro h1 h2 h3 h4
    unfold KmkVia.sendKey
    simp [h1, h3, Nat.not_le.mpr h2, h4]
  · intro h1 h2 h3
    unfold TidbitVia.sendKey
    simp [h1, h2, h3]

/-- Witness for the amended C8: a modifier key is silently dropped and an
unmapped plain code logs exactly one diagnostic in the self-clocked
variant; an internal code logs one diagnostic in the externally-clocked
variant. -/
theorem claim_C8_amended_witness :
    KmkVia.sendKey ⟨[], stdKeymapK⟩ lsft = ⟨[], 0⟩
    ∧ KmkVia.sendKey ⟨[], stdKeymapK⟩ keyQm = ⟨[], 1⟩
    ∧ (TidbitVia.sendKey ⟨true, stdKeymapT⟩ keyInternal).2 = ⟨[], 1, 0⟩ := by
  refine ⟨?_, ?_, ?_⟩
  · exact (claim_C8_amended ⟨[], stdKeymapK⟩ lsft ⟨true, stdKeymapT⟩).1 rfl (Or.inr rfl)
  · exact (claim_C8_amended ⟨[], stdKeymapK⟩ keyQm ⟨true, stdKeymapT⟩).2.1 rfl
      (by decide) rfl rfl
  · exact (claim_C8_amended ⟨[], stdKeymapK⟩ keyInternal ⟨true, stdKeymapT⟩).2.2 rfl rfl rfl

/-- C9, counterexample: the claim says table construction completes for
every possible result of the key-identity lookups, in all three build
phases.  In an environment whose named-identity lookups resolve to
nothing, the first numeric-keypad alias lookup is passed unguarded to
`mapKey` and construction raises (models as `none`) in both variants. -/
theorem claim_C9_counterexample :
    KmkVia.mapKeys envNoNames = none ∧ TidbitVia.mapKeys envNoNames = none :=
  ⟨rfl, rfl⟩

/-- C9, amended: only the printable-range phase tolerates unresolvable
lookups — construction completes whenever every numeric-keypad alias and
control-character special resolves, with the printable-range phase
logging exactly one diagnostic per unresolvable code point and omitting
the entry; an unresolvable lookup in the keypad-alias or specials phase
makes construction raise. -/
theorem claim_C9_amended (env : KCEnv)
    (h : ((KmkVia.numpadEntries ++ KmkVia.specialEntries).all
        (fun p => (env.byName p.1).isSome)) = true) :
    (KmkVia.mapKeys env).isSome = true
    ∧ (TidbitVia.mapKeys env).isSome = true
    ∧ (KmkVia.mapKeysP1 env).2
        = ((List.range' 32 95).filter (fun i => (env.byChar i).isNone)).length
    ∧ (TidbitVia.mapKeysP1 env).2
        = ((List.range' 32 95).filter (fun i => (env.byChar i).isNone)).length := by
  rw [List.all_append, Bool.and_eq_true] at h
  refine ⟨?_, ?_, ?_, ?_⟩
  · have h2 : (KmkVia.mapKeysP2 env (KmkVia.mapKeysP1 env).1).isSome = true :=
      foldlM_lookup_isSome env.byName KmkVia.mapKey KmkVia.numpadEntries _ h.1
    obtain ⟨km2, hkm2⟩ := Option.isSome_iff_exists.mp h2
    have h3 : (KmkVia.mapKeysP3 env km2).isSome = true :=
      foldlM_lookup_isSome env.byName KmkVia.mapKey KmkVia.specialEntries km2 h.2
    unfold KmkVia.mapKeys
    simp only [hkm2, Option.some_bind, Option.isSome_map]
    simpa using h3
  · have h2 : (TidbitVia.mapKeysP2 env (TidbitVia.mapKeysP1 env).1).isSome = true :=
      foldlM_lookup_isSome env.byName TidbitVia.mapKey TidbitVia.numpadEntries _ h.1
    obtain ⟨km2, hkm2⟩ := Option.isSome_iff_exists.mp h2
    have h3 : (TidbitVia.mapKeysP3 env km2).isSome = true :=
      foldlM_lookup_isSome env.byName TidbitVia.mapKey TidbitVia.specialEntries km2 h.2
    unfold TidbitVia.mapKeys
    simp only [hkm2, Option.some_bind, Option.isSome_map]
    simpa using h3
  · simpa using foldl_miss_count env.byChar KmkVia.mapKey (List.range' 32 95) (fun _ => none) 0
  · simpa using foldl_miss_count env.byChar TidbitVia.mapKey (List.range' 32 95) (fun _ => none) 0

/-- Witness for the amended C9: over the fixture environment (every keypad
alias and special resolving) construction completes in both variants. -/
theorem claim_C9_witness :
    (KmkVia.mapKeys stdKC).isSome = true
    ∧ (TidbitVia.mapKeys stdKC).isSome = true := by
  have h := claim_C9_amended stdKC rfl
  exact ⟨h.1, h.2.1⟩

/-- C10: each self-clocked `after_hid_send` cycle transmits at most one
key: the snapshot is always replaced wholesale by the current pressed
set; nothing is sent unless the current set is strictly larger than the
previous snapshot (so a press coinciding with a release in the same cycle
is never transmitted); and when it is strictly larger, exactly one
element of the set difference (current minus snapshot) is handed to
`sendKey`, which transmits at most one byte. -/
theorem claim_C10_at_most_one_send (st : KmkVia.State) (cur : List Key) :
    ((KmkVia.after_hid_send st cur).1.pressed = cur
      ∧ (KmkVia.after_hid_send st cur).1.keymap = st.keymap)
    ∧ (¬ st.pressed.length < cur.length →
        KmkVia.after_hid_send st cur = ({ st with pressed := cur }, ⟨[], 0⟩))
    ∧ (st.pressed.length < cur.length → cur.Nodup →
        ∃ k, KmkVia.chooseNewKey st.pressed cur = some k ∧ k ∈ cur ∧ k ∉ st.pressed
          ∧ (KmkVia.after_hid_send st cur).2
              = KmkVia.sendKey { st with pressed := cur } k)
    ∧ (KmkVia.after_hid_send st cur).2.sent.length ≤ 1 := by
  refine ⟨⟨rfl, rfl⟩, ?_, ?_, ?_⟩
  · intro h
    unfold KmkVia.after_hid_send KmkVia.chooseNewKey
    simp [if_neg h]
  · intro h hn
    have hne := filter_new_ne_nil st.pressed cur hn h
    rcases hfl : cur.filter (fun k => k ∉ st.pressed) with _ | ⟨a, t⟩
    · exact absurd hfl hne
    · have hmem : a ∈ cur.filter (fun k => k ∉ st.pressed) := by
        rw [hfl]; exact List.mem_cons_self a t
      rw [List.mem_filter] at hmem
      have hchoose : KmkVia.chooseNewKey st.pressed cur = some a := by
        unfold KmkVia.chooseNewKey
        rw [if_pos h, hfl]
        rfl
      refine ⟨a, hchoose, hmem.1, by simpa using hmem.2, ?_⟩
      unfold KmkVia.after_hid_send
      rw [hchoose]
  · unfold KmkVia.after_hid_send
    rcases KmkVia.chooseNewKey st.pressed cur with _ | k
    · simp
    · exact kmk_sendKey_sent_le_one _ k

/-- Witness for C10: pressing the `'a'` key from an empty snapshot sends
exactly that key; holding the same single key across a cycle (no strict
growth) sends nothing. -/
theorem claim_C10_witness :
    (KmkVia.after_hid_send ⟨[], stdKeymapK⟩ [keyA]).1.pressed = [keyA]
    ∧ (KmkVia.after_hid_send ⟨[], stdKeymapK⟩ [keyA]).2
        = KmkVia.sendKey ⟨[keyA], stdKeymapK⟩ keyA
    ∧ (KmkVia.after_hid_send ⟨[lsft], stdKeymapK⟩ [lsft]).2 = ⟨[], 0⟩ := by
  have h := claim_C10_at_most_one_send ⟨[], stdKeymapK⟩ [keyA]
  have h2 := claim_C10_at_most_one_send ⟨[lsft], stdKeymapK⟩ [lsft]
  obtain ⟨k, hk, hmem, hns, hres⟩ := h.2.2.1 (by decide) (by decide)
  have hkeq : k = keyA := by
    have hch : KmkVia.chooseNewKey [] [keyA] = some keyA := rfl
    rw [hch] at hk
    exact (Option.some_inj.mp hk).symm
  refine ⟨h.1.1, ?_, ?_⟩
  · rw [hres, hkeq]
  · have hno := h2.2.1 (by decide)
    rw [hno]
